import Mathlib

/-!
Verification of the Shankh.ai RAG service core (packages/rag_service/server.py):
the retrieval pipeline (post-search result assembly of `retrieve`) and the
speech-to-text fallback chain (`transcribe_audio`), embedded shallowly.

External capability providers (the embedding model, the FAISS index search,
librosa/torch inference, langdetect) are modelled as inputs: the index search
result is a list of (distance, chunk_idx) pairs, each model run is an oracle
that either returns a value or raises, and language detection is an optional
string. Floating-point scores are modelled as rationals; only their ordering
matters to the orchestration logic. File-system effects of the transcription
handler (temporary file creation and deletion) are recorded in an explicit
trace so that the cleanup invariant can be stated.
-/

namespace RagService

/-- One record of `state.metadata['chunks']`. -/
structure ChunkData where
  chunk_id : Int
  filename : String
  page_num : Int
  text : String
  excerpt : String
  char_start : Int
  char_end : Int
  deriving DecidableEq, Repr

/-- One element of the parallel arrays returned by `state.index.search`:
a pair of `distances[0][i]` and `indices[0][i]`.  FAISS uses `-1` as the
"no match" sentinel in the index column. -/
structure SearchEntry where
  distance : ℚ
  chunk_idx : Int
  deriving DecidableEq, Repr

/-- The `DocumentResult` pydantic model of server.py. -/
structure DocumentResult where
  chunk_id : Int
  filename : String
  page_num : Int
  text : String
  excerpt : String
  score : ℚ
  char_start : Int
  char_end : Int
  deriving DecidableEq, Repr

/-- The `RetrievalRequest` pydantic model (schema bounds `k ∈ [1,50]`,
`threshold ∈ [0,1]` are enforced by the transport layer, not here). -/
structure RetrievalRequest where
  query : String
  k : Nat
  lang_hint : Option String
  threshold : Option ℚ
  deriving DecidableEq, Repr

/-- The `RetrievalResponse` pydantic model (wall-clock `processing_time_ms`
is omitted: real time is outside the embedding). -/
structure RetrievalResponse where
  query : String
  results : List DocumentResult
  num_results : Nat
  detected_language : Option String
  deriving DecidableEq, Repr

/-- Outcome of a request handler: a 200 body, or an HTTP error status with
detail (HTTPException raised by the handler, or the 500 produced by the
framework for an unhandled exception). -/
inductive Handled (α : Type) where
  | ok (resp : α)
  | httpError (status : Nat) (detail : String)
  deriving DecidableEq, Repr

/-- The fields of the global `ServerState` that the two handlers consult,
plus the module-level `WHISPER_AVAILABLE` import flag.  A `true` model flag
means the corresponding attribute is a loaded (truthy) object, `false` that
it is `None`. -/
structure ServerState where
  ready : Bool
  chunks : List ChunkData
  whisperAvailable : Bool
  indicModelLoaded : Bool
  indicProcessorLoaded : Bool
  whisperModelLoaded : Bool
  deriving DecidableEq, Repr

/-- Python list subscripting `xs[i]` with an `Int` index: negative indices
address from the end; out of range raises `IndexError`, modelled as `none`. -/
def pyListGet (xs : List ChunkData) (i : Int) : Option ChunkData :=
  let j : Int := if i < 0 then (xs.length : Int) + i else i
  if 0 ≤ j then xs[j.toNat]? else none

/-- The threshold test of server.py line 392:
`request.threshold is not None and score < request.threshold`. -/
def dropByThreshold (threshold : Option ℚ) (score : ℚ) : Bool :=
  match threshold with
  | some t => decide (score < t)
  | none => false

/-- Assembly of one `DocumentResult` from the resolved chunk metadata and the
converted score (server.py lines 395-404). -/
def mkDocumentResult (chunk_data : ChunkData) (score : ℚ) : DocumentResult :=
  { chunk_id := chunk_data.chunk_id
    filename := chunk_data.filename
    page_num := chunk_data.page_num
    text := chunk_data.text
    excerpt := chunk_data.excerpt
    score := score
    char_start := chunk_data.char_start
    char_end := chunk_data.char_end }

/-- The result-assembly loop of `retrieve` (server.py lines 383-405).
Iterates over the search entries in index-return order; a `-1` sentinel is
skipped before the metadata store is consulted; otherwise
`state.metadata['chunks'][chunk_idx]` is resolved (an out-of-range index
raises `IndexError`, poisoning the whole call: `none`),
`score = float(distance)`, and a set threshold discards entries with
`score < threshold` after the lookup.  Returns the surviving
`DocumentResult`s in order together with the list of indices actually used
to subscript the chunk array, in consultation order. -/
def buildResults (chunks : List ChunkData) (threshold : Option ℚ) :
    List SearchEntry → Option (List DocumentResult × List Int)
  | [] => some ([], [])
  | e :: rest =>
    if e.chunk_idx = -1 then
      buildResults chunks threshold rest
    else
      match pyListGet chunks e.chunk_idx with
      | none => none
      | some chunk_data =>
        match buildResults chunks threshold rest with
        | none => none
        | some (results, consulted) =>
          if dropByThreshold threshold e.distance then
            some (results, e.chunk_idx :: consulted)
          else
            some (mkDocumentResult chunk_data e.distance :: results,
                  e.chunk_idx :: consulted)

/-- The `/retrieve` handler (server.py lines 340-416).  Embedding,
normalization and the index search are external calls; their combined output
is the `searchOut` parameter, and the best-effort language detection outcome
is `detected_lang`.  The handler rejects with 503 before any pipeline step
when the readiness flag is down; an exception escaping the handler (the
modelled one: a bad chunk subscript) surfaces as the framework's 500. -/
def retrieve (st : ServerState) (request : RetrievalRequest)
    (searchOut : List SearchEntry) (detected_lang : Option String) :
    Handled RetrievalResponse :=
  if ¬ st.ready then .httpError 503 "Service not ready"
  else
    match buildResults st.chunks request.threshold searchOut with
    | none => .httpError 500 "Internal Server Error"
    | some (results, _) =>
      .ok { query := request.query
            results := results
            num_results := results.length
            detected_language := detected_lang }

/-- Outcome of a call into an external collaborator: a returned value, or a
raised exception carrying a message. -/
inductive ModelOutcome (α : Type) where
  | ok (value : α)
  | raises (msg : String)
  deriving DecidableEq, Repr

/-- One element of Whisper's `result['segments']`.  The source reads
`seg['start']`, `seg['end']`, `seg['text']` by direct subscript and
`seg.get('no_speech_prob', 0)` with a default; `stop` stands for the
source key `end`. -/
structure WhisperSegment where
  start : ℚ
  stop : ℚ
  text : String
  no_speech_prob : Option ℚ
  deriving DecidableEq, Repr

/-- Whisper's transcription dict: `result['text']` (direct subscript),
`result.get('language', 'unknown')` and `result.get('segments', [])`. -/
structure WhisperResult where
  text : String
  language : Option String
  segments : Option (List WhisperSegment)
  deriving DecidableEq, Repr

/-- One element of the response `segments` list. -/
structure Segment where
  start : ℚ
  stop : ℚ
  text : String
  deriving DecidableEq, Repr

/-- The `TranscriptionResponse` pydantic model. -/
structure TranscriptionResponse where
  text : String
  language : String
  confidence : Option ℚ
  segments : List Segment
  deriving DecidableEq, Repr

/-- Observable behaviour of one `/transcribe` call: the HTTP outcome plus
the temporary-file events (whether `NamedTemporaryFile` created the file,
how many times `os.unlink` ran on it) and which model slots were run. -/
structure TranscribeTrace where
  outcome : Handled TranscriptionResponse
  tempCreated : Bool
  tempDeletions : Nat
  primaryInvoked : Bool
  fallbackInvoked : Bool
  deriving DecidableEq, Repr

/-- The Whisper-fallback tail of the handler (server.py lines 524-578),
reached with the temporary file on disk and the primary stage not having
returned.  If `state.whisper_model` is loaded it is run: on success the file
is deleted and the response synthesized (confidence `1 - mean(no_speech_prob)`
over the segments, or the `0.8` default when there are none; segments mapped
to (start, end, stripped text)); on an exception the file is deleted and a
500 with the underlying message is raised.  If the slot is absent the file
is deleted and a 501 is raised (lines 572-578). -/
def whisperStage (st : ServerState) (whisper : ModelOutcome WhisperResult)
    (primaryInvoked : Bool) : TranscribeTrace :=
  if st.whisperModelLoaded then
    match whisper with
    | .ok result =>
      let segments := result.segments.getD []
      let avg_confidence : ℚ :=
        if segments.isEmpty then 0.8
        else 1 - (segments.map (fun seg => seg.no_speech_prob.getD 0)).sum /
          (segments.length : ℚ)
      { outcome := .ok
          { text := result.text.trim
            language := result.language.getD "unknown"
            confidence := some avg_confidence
            segments := segments.map (fun seg =>
              { start := seg.start, stop := seg.stop, text := seg.text.trim }) }
        tempCreated := true
        tempDeletions := 1
        primaryInvoked := primaryInvoked
        fallbackInvoked := true }
    | .raises msg =>
      { outcome := .httpError 500 ("Whisper transcription failed: " ++ msg)
        tempCreated := true
        tempDeletions := 1
        primaryInvoked := primaryInvoked
        fallbackInvoked := true }
  else
    { outcome := .httpError 501 "No STT model available"
      tempCreated := true
      tempDeletions := 1
      primaryInvoked := primaryInvoked
      fallbackInvoked := false }

/-- The `/transcribe` handler (server.py lines 419-586).  The early gate
(line 441) tests `WHISPER_AVAILABLE` (the import flag) and the primary model
attribute.  Past the gate, `NamedTemporaryFile(delete=False)` creates the
temporary file, then the upload is read and written and only then is
`temp_path` bound: an exception raised by the read (`read` = `.raises`)
reaches the outer generic handler at a point where `temp_path` is not in
`locals()`, so no deletion runs.  The primary model (attempted only when
both processor and model are loaded, line 467) returns a fixed `0.85`
confidence and empty segments on success; any exception falls through to
`whisperStage`.  `detected` is the langdetect result on the primary's
transcription (`none` when unavailable or raising; default `"hi"`). -/
def transcribe_audio (st : ServerState) (read : ModelOutcome (List Nat))
    (indic : ModelOutcome String) (whisper : ModelOutcome WhisperResult)
    (detected : Option String) : TranscribeTrace :=
  if ¬ st.whisperAvailable ∧ ¬ st.indicModelLoaded then
    { outcome := .httpError 501 "No STT model available. Install Whisper or IndicSeamless."
      tempCreated := false
      tempDeletions := 0
      primaryInvoked := false
      fallbackInvoked := false }
  else
    match read with
    | .raises msg =>
      { outcome := .httpError 500 ("Transcription failed: " ++ msg)
        tempCreated := true
        tempDeletions := 0
        primaryInvoked := false
        fallbackInvoked := false }
    | .ok _ =>
      if st.indicModelLoaded ∧ st.indicProcessorLoaded then
        match indic with
        | .ok transcription =>
          let detected_lang := detected.getD "hi"
          { outcome := .ok
              { text := transcription.trim
                language := detected_lang
                confidence := some 0.85
                segments := [] }
            tempCreated := true
            tempDeletions := 1
            primaryInvoked := true
            fallbackInvoked := false }
        | .raises _ => whisperStage st whisper true
      else
        whisperStage st whisper false

/-- The lowest score among a result list (the client-side minimum used by the
round-trip property); `0` for an empty list, where it is never used. -/
def lowestScore : List DocumentResult → ℚ
  | [] => 0
  | [r] => r.score
  | r :: s :: rest => min r.score (lowestScore (s :: rest))


/-- A small concrete chunk store for witness evaluations. -/
def egChunks : List ChunkData :=
  [⟨0, "a.pdf", 1, "text zero", "ex zero", 0, 9⟩,
   ⟨1, "a.pdf", 2, "text one", "ex one", 9, 17⟩,
   ⟨2, "b.pdf", 1, "text two", "ex two", 0, 8⟩]

/-- A concrete index-search output: sorted by distance descending, with one
sentinel entry in third position. -/
def egSearchOut : List SearchEntry := [⟨5, 2⟩, ⟨3, 0⟩, ⟨3, -1⟩, ⟨1, 1⟩]

/-- A ready server state over the concrete chunk store. -/
def egState : ServerState := ⟨true, egChunks, false, false, false, false⟩

/-- The response `retrieve` produces on `egState`/`egSearchOut` with no
threshold. -/
def egResponse : RetrievalResponse :=
  ⟨"q", [mkDocumentResult ⟨2, "b.pdf", 1, "text two", "ex two", 0, 8⟩ 5,
         mkDocumentResult ⟨0, "a.pdf", 1, "text zero", "ex zero", 0, 9⟩ 3,
         mkDocumentResult ⟨1, "a.pdf", 2, "text one", "ex one", 9, 17⟩ 1],
   3, none⟩

end RagService

/-! Helper lemmas about the result-assembly loop. -/

namespace RagService

/-- The scores of the assembled results form a sublist of the input
distances: the loop only skips entries, it never reorders survivors. -/
theorem buildResults_scores_sublist {chunks : List ChunkData} {threshold : Option ℚ}
    {entries : List SearchEntry} {results : List DocumentResult} {consulted : List Int}
    (h : buildResults chunks threshold entries = some (results, consulted)) :
    (results.map (fun r => r.score)).Sublist (entries.map (fun e => e.distance)) := by
  induction entries generalizing results consulted with
  | nil =>
    simp only [buildResults, Option.some.injEq, Prod.mk.injEq] at h
    simp [← h.1]
  | cons e rest ih =>
    simp only [buildResults] at h
    split at h
    · exact (ih h).cons _
    · split at h
      · exact absurd h (by simp)
      · split at h
        · exact absurd h (by simp)
        · rename_i results0 consulted0 heq
          split at h
          · simp only [Option.some.injEq, Prod.mk.injEq] at h
            exact (by rw [← h.1]; exact ih heq :
              (results.map (fun r => r.score)).Sublist _).cons _
          · simp only [Option.some.injEq, Prod.mk.injEq] at h
            rw [← h.1]
            simpa [mkDocumentResult] using (ih heq).cons₂ e.distance

/-- Running the loop with a threshold is exactly running it with no
threshold and then discarding the below-threshold results; the metadata
consultations are identical (the lookup happens before the threshold test). -/
theorem buildResults_threshold_filter {chunks : List ChunkData} (t : ℚ)
    {entries : List SearchEntry} {results : List DocumentResult} {consulted : List Int}
    (h : buildResults chunks none entries = some (results, consulted)) :
    buildResults chunks (some t) entries
      = some (results.filter (fun r => ! decide (r.score < t)), consulted) := by
  induction entries generalizing results consulted with
  | nil =>
    simp only [buildResults, Option.some.injEq, Prod.mk.injEq] at h
    simp [buildResults, ← h.1, ← h.2]
  | cons e rest ih =>
    simp only [buildResults] at h ⊢
    split at h
    · rename_i he
      rw [if_pos he]
      exact ih h
    · rename_i he
      rw [if_neg he]
      split at h
      · exact absurd h (by simp)
      · rename_i cd hg
        split at h
        · exact absurd h (by simp)
        · rename_i results0 consulted0 heq
          simp only [ih heq]
          simp only [dropByThreshold, if_neg (by simp : ¬ (false = true))] at h
          simp only [Option.some.injEq, Prod.mk.injEq] at h
          rw [← h.1, ← h.2]
          by_cases hd : e.distance < t
          · simp [dropByThreshold, hd, mkDocumentResult, List.filter_cons]
          · simp [dropByThreshold, hd, mkDocumentResult, List.filter_cons]

/-- Every result surviving a set threshold scores at least the threshold. -/
theorem buildResults_mem_threshold {chunks : List ChunkData} {t : ℚ}
    {entries : List SearchEntry} {results : List DocumentResult} {consulted : List Int}
    (h : buildResults chunks (some t) entries = some (results, consulted)) :
    ∀ r ∈ results, t ≤ r.score := by
  induction entries generalizing results consulted with
  | nil =>
    simp only [buildResults, Option.some.injEq, Prod.mk.injEq] at h
    simp [← h.1]
  | cons e rest ih =>
    simp only [buildResults] at h
    split at h
    · exact ih h
    · split at h
      · exact absurd h (by simp)
      · split at h
        · exact absurd h (by simp)
        · rename_i results0 consulted0 heq
          split at h
          · simp only [Option.some.injEq, Prod.mk.injEq] at h
            rw [← h.1]
            exact ih heq
          · rename_i hd
            simp only [Option.some.injEq, Prod.mk.injEq] at h
            rw [← h.1]
            intro r hr
            rcases List.mem_cons.mp hr with hcase | hcase
            · subst hcase
              simp only [dropByThreshold, decide_eq_true_eq] at hd
              simp only [mkDocumentResult]
              exact le_of_not_lt (by simpa using hd)
            · exact ih heq r hcase

/-- A non-negative in-range index resolves in the chunk store. -/
theorem pyListGet_valid {chunks : List ChunkData} {i : Int}
    (h0 : 0 ≤ i) (h1 : i < (chunks.length : Int)) :
    ∃ chunk_data, pyListGet chunks i = some chunk_data := by
  have hlt : i.toNat < chunks.length := by omega
  refine ⟨chunks[i.toNat], ?_⟩
  simp only [pyListGet]
  rw [if_neg (by omega : ¬ i < 0), if_pos h0]
  exact List.getElem?_eq_getElem hlt

/-- When every search entry is the sentinel or a valid index, the loop
succeeds, and the chunk store is consulted exactly at the non-sentinel
indices, in order. -/
theorem buildResults_total_consulted {chunks : List ChunkData} (threshold : Option ℚ)
    {entries : List SearchEntry}
    (hvalid : ∀ e ∈ entries,
      e.chunk_idx = -1 ∨ (0 ≤ e.chunk_idx ∧ e.chunk_idx < (chunks.length : Int))) :
    ∃ results consulted,
      buildResults chunks threshold entries = some (results, consulted) ∧
      consulted = (entries.filter (fun e => ! decide (e.chunk_idx = -1))).map
        (fun e => e.chunk_idx) ∧
      results.length ≤ consulted.length := by
  induction entries with
  | nil => exact ⟨[], [], rfl, by simp, le_refl 0⟩
  | cons e rest ih =>
    obtain ⟨rs, cs, hb, hcs, hlen⟩ :=
      ih (fun x hx => hvalid x (List.mem_cons_of_mem _ hx))
    by_cases he : e.chunk_idx = -1
    · refine ⟨rs, cs, ?_, ?_, hlen⟩
      · simp only [buildResults, if_pos he]
        exact hb
      · simpa [he] using hcs
    · obtain ⟨hge, hlt⟩ := (hvalid e (by simp)).resolve_left he
      obtain ⟨cd, hg⟩ := pyListGet_valid hge hlt
      by_cases hd : dropByThreshold threshold e.distance
      · refine ⟨rs, e.chunk_idx :: cs, ?_, ?_, ?_⟩
        · simp only [buildResults, if_neg he, hg, hb, hd, if_true]
        · simp [he, hcs]
        · simp
          omega
      · refine ⟨mkDocumentResult cd e.distance :: rs, e.chunk_idx :: cs, ?_, ?_, ?_⟩
        · simp only [buildResults, if_neg he, hg, hb]
          rw [if_neg (by simpa using hd)]
        · simp [he, hcs]
        · simp
          omega

/-- The client-side minimum really is a lower bound on the scores. -/
theorem lowestScore_le :
    ∀ (results : List DocumentResult), ∀ r ∈ results, lowestScore results ≤ r.score
  | [] => by simp
  | [x] => by
    intro r hr
    simp only [List.mem_singleton] at hr
    subst hr
    simp [lowestScore]
  | x :: y :: rest => by
    intro r hr
    rcases List.mem_cons.mp hr with hcase | hcase
    · subst hcase
      simp [lowestScore]
    · calc lowestScore (x :: y :: rest) ≤ lowestScore (y :: rest) := by
            simp [lowestScore]
        _ ≤ r.score := lowestScore_le (y :: rest) r hcase

end RagService

/-! Claim theorems. -/

namespace RagService

/-- Claim C1 (refuted at this input; the code contradicts the guaranteed
cleanup its own handler comments and the spec state): the claim says the
temporary audio file is deleted exactly once before the call returns on
every exit path, including an unexpected exception raised while reading the
upload.  Evaluating the handler at such an input — the upload read raises
after `NamedTemporaryFile(delete=False)` has created the file and before
`temp_path` is assigned, with the early 501 gate passed — shows the file is
created and never deleted: the generic cleanup guard
`'temp_path' in locals()` is false at that point, so `os.unlink` is skipped
and the call returns 500 leaving the file on disk. -/
theorem C1_temp_file_leak_on_read_failure :
    transcribe_audio ⟨true, [], true, false, false, false⟩
      (.raises "client disconnected") (.raises "unused") (.raises "unused") none
      = { outcome := .httpError 500 "Transcription failed: client disconnected"
          tempCreated := true
          tempDeletions := 0
          primaryInvoked := false
          fallbackInvoked := false } := by decide

/-- Claim C2, counterexample: with the readiness flag false, the
transcription endpoint does not fail with 503 "Service not ready"; it
proceeds through its pipeline (the primary model is invoked) and terminates
with its own 501, because `transcribe_audio` never consults `state.ready`. -/
theorem C2_counterexample :
    (transcribe_audio ⟨false, [], true, true, true, false⟩ (.ok [0])
        (.raises "model error") (.raises "unused") none).outcome
        = .httpError 501 "No STT model available" ∧
    (transcribe_audio ⟨false, [], true, true, true, false⟩ (.ok [0])
        (.raises "model error") (.raises "unused") none).outcome
        ≠ .httpError 503 "Service not ready" ∧
    (transcribe_audio ⟨false, [], true, true, true, false⟩ (.ok [0])
        (.raises "model error") (.raises "unused") none).primaryInvoked = true := by
  decide

/-- Claim C2 as amended: only the retrieval endpoint fails fast with the
503 "Service not ready" error when the readiness flag is false; the
transcription endpoint performs no readiness check at all — its behaviour
is identical whether the flag is false or true. -/
theorem C2_amended :
    (∀ (st : ServerState) (request : RetrievalRequest) (searchOut : List SearchEntry)
        (detected_lang : Option String), st.ready = false →
        retrieve st request searchOut detected_lang
          = .httpError 503 "Service not ready") ∧
    (∀ (st : ServerState) (read : ModelOutcome (List Nat)) (indic : ModelOutcome String)
        (whisper : ModelOutcome WhisperResult) (detected : Option String),
        transcribe_audio st read indic whisper detected
          = transcribe_audio { st with ready := true } read indic whisper detected) := by
  constructor
  · intro st request searchOut detected_lang hready
    simp [retrieve, hready]
  · intro st read indic whisper detected
    cases st
    rfl

/-- Claim C2 witness: the amended theorem applied at a concrete not-ready
state. -/
theorem C2_amended_witness :
    retrieve ⟨false, [], false, false, false, false⟩ ⟨"q", 5, none, none⟩ [] none
      = .httpError 503 "Service not ready" :=
  C2_amended.1 _ _ _ _ rfl

/-- Claim C3: when the primary model slot is attempted (model and processor
loaded), a primary success returns the primary's synthesized response and
the fallback is never invoked; a primary failure hands the call to the
fallback stage on the same persisted audio, with no retry of the primary,
and the remainder of the computation is exactly `whisperStage`, which does
not receive the primary's error — so the fallback's outcome alone
determines the response and the primary's error is never surfaced when the
fallback succeeds. -/
theorem C3_fallback_chain (st : ServerState)
    (h1 : st.indicModelLoaded = true) (h2 : st.indicProcessorLoaded = true) :
    (∀ (content : List Nat) (transcription : String) (whisper : ModelOutcome WhisperResult)
        (detected : Option String),
      transcribe_audio st (.ok content) (.ok transcription) whisper detected
        = { outcome := .ok { text := transcription.trim
                             language := detected.getD "hi"
                             confidence := some 0.85
                             segments := [] }
            tempCreated := true
            tempDeletions := 1
            primaryInvoked := true
            fallbackInvoked := false }) ∧
    (∀ (content : List Nat) (msg : String) (whisper : ModelOutcome WhisperResult)
        (detected : Option String),
      transcribe_audio st (.ok content) (.raises msg) whisper detected
        = whisperStage st whisper true) := by
  constructor
  · intro content transcription whisper detected
    simp [transcribe_audio, h1, h2]
  · intro content msg whisper detected
    simp [transcribe_audio, h1, h2]

/-- Claim C3 witness: the chain theorem applied at a concrete state with
both slots loaded, for a primary success and a primary failure. -/
theorem C3_fallback_chain_witness :
    (transcribe_audio ⟨true, [], true, true, true, true⟩ (.ok [7]) (.ok " hello ")
        (.raises "unused") (some "en")
        = { outcome := .ok { text := " hello ".trim
                             language := (some "en").getD "hi"
                             confidence := some 0.85
                             segments := [] }
            tempCreated := true
            tempDeletions := 1
            primaryInvoked := true
            fallbackInvoked := false }) ∧
    (transcribe_audio ⟨true, [], true, true, true, true⟩ (.ok [7])
        (.raises "primary failed") (.raises "fallback failed") none
        = whisperStage ⟨true, [], true, true, true, true⟩ (.raises "fallback failed") true) :=
  ⟨(C3_fallback_chain _ rfl rfl).1 _ _ _ _, (C3_fallback_chain _ rfl rfl).2 _ _ _ _⟩

/-- Claim C4: the retrieval result list's scores form a sublist of the
index-search distances — the loop only discards entries (sentinels,
below-threshold scores), never reorders survivors and never re-sorts — and
therefore, when the search output is sorted by distance descending (ties in
original order), the returned scores are sorted descending as well. -/
theorem C4_order_preserved {st : ServerState} {request : RetrievalRequest}
    {searchOut : List SearchEntry} {detected_lang : Option String}
    {resp : RetrievalResponse}
    (hsorted : (searchOut.map (fun e => e.distance)).Pairwise (· ≥ ·))
    (h : retrieve st request searchOut detected_lang = .ok resp) :
    (resp.results.map (fun r => r.score)).Sublist
      (searchOut.map (fun e => e.distance)) ∧
    (resp.results.map (fun r => r.score)).Pairwise (· ≥ ·) := by
  unfold retrieve at h
  split at h
  · exact absurd h (by simp)
  · split at h
    · exact absurd h (by simp)
    · rename_i results consulted heq
      simp only [Handled.ok.injEq] at h
      have hsub : (resp.results.map (fun r => r.score)).Sublist
          (searchOut.map (fun e => e.distance)) := by
        rw [← h]
        exact buildResults_scores_sublist heq
      exact ⟨hsub, List.Pairwise.sublist hsub hsorted⟩

/-- Claim C4 witness: the ordering theorem applied to the concrete search
output (sorted descending, one sentinel). -/
theorem C4_order_preserved_witness :
    ((egSearchOut.map (fun e => e.distance)).Pairwise (· ≥ ·) ∧
     retrieve egState ⟨"q", 5, none, none⟩ egSearchOut none = .ok egResponse) ∧
    ((egResponse.results.map (fun r => r.score)).Sublist
      (egSearchOut.map (fun e => e.distance)) ∧
     (egResponse.results.map (fun r => r.score)).Pairwise (· ≥ ·)) :=
  ⟨⟨by decide, by decide⟩,
   @C4_order_preserved egState ⟨"q", 5, none, none⟩ egSearchOut none egResponse
     (by decide) (by decide)⟩

/-- Claim C5: with a set threshold the retrieval call succeeds exactly when
the threshold-free call does, returns precisely the threshold-free results
filtered by `score ≥ threshold` (so nothing else is discarded on account of
the threshold), and every returned element scores at least the threshold. -/
theorem C5_threshold_filter {st : ServerState} {request : RetrievalRequest}
    {searchOut : List SearchEntry} {detected_lang : Option String}
    {t : ℚ} {resp0 : RetrievalResponse}
    (hth : request.threshold = some t)
    (h0 : retrieve st { request with threshold := none } searchOut detected_lang
      = .ok resp0) :
    ∃ resp, retrieve st request searchOut detected_lang = .ok resp ∧
      resp.results = resp0.results.filter (fun r => ! decide (r.score < t)) ∧
      ∀ r ∈ resp.results, t ≤ r.score := by
  unfold retrieve at h0
  split at h0
  · exact absurd h0 (by simp)
  · rename_i hready
    split at h0
    · exact absurd h0 (by simp)
    · rename_i results consulted heq
      simp only [Handled.ok.injEq] at h0
      have hfil := buildResults_threshold_filter t heq
      refine ⟨⟨request.query, results.filter (fun r => ! decide (r.score < t)),
               (results.filter (fun r => ! decide (r.score < t))).length,
               detected_lang⟩, ?_, ?_, ?_⟩
      · unfold retrieve
        rw [if_neg hready, hth, hfil]
      · rw [← h0]
      · exact buildResults_mem_threshold hfil

/-- Claim C5 witness: the threshold theorem applied at threshold 2 over the
concrete search output; the surviving results are those scoring 5 and 3. -/
theorem C5_threshold_filter_witness :
    retrieve egState ⟨"q", 5, none, none⟩ egSearchOut none = .ok egResponse ∧
    ∃ resp, retrieve egState ⟨"q", 5, none, some 2⟩ egSearchOut none = .ok resp ∧
      resp.results = egResponse.results.filter (fun r => ! decide (r.score < 2)) ∧
      ∀ r ∈ resp.results, 2 ≤ r.score :=
  ⟨by decide,
   @C5_threshold_filter egState ⟨"q", 5, none, some 2⟩ egSearchOut none 2
     egResponse rfl (by decide)⟩

/-- Claim C6: when every search entry is the `-1` sentinel or a valid chunk
index, the retrieval call succeeds (fewer than k valid neighbors is not an
error), the chunk-metadata store is subscripted exactly at the non-sentinel
indices in order — never with the sentinel — and each returned result stems
from one such consultation (so no sentinel entry appears in the results). -/
theorem C6_sentinel_skipped {st : ServerState} {request : RetrievalRequest}
    {searchOut : List SearchEntry} {detected_lang : Option String}
    (hready : st.ready = true)
    (hvalid : ∀ e ∈ searchOut, e.chunk_idx = -1 ∨
        (0 ≤ e.chunk_idx ∧ e.chunk_idx < (st.chunks.length : Int))) :
    ∃ resp consulted,
      retrieve st request searchOut detected_lang = .ok resp ∧
      consulted = (searchOut.filter (fun e => ! decide (e.chunk_idx = -1))).map
        (fun e => e.chunk_idx) ∧
      (-1 : Int) ∉ consulted ∧
      buildResults st.chunks request.threshold searchOut
        = some (resp.results, consulted) ∧
      resp.results.length ≤ consulted.length := by
  obtain ⟨rs, cs, hb, hcs, hlen⟩ := buildResults_total_consulted request.threshold hvalid
  refine ⟨⟨request.query, rs, rs.length, detected_lang⟩, cs, ?_, hcs, ?_, hb, hlen⟩
  · simp [retrieve, hready, hb]
  · rw [hcs]
    simp only [List.mem_map, List.mem_filter, not_exists]
    rintro e ⟨⟨_, hne⟩, heq⟩
    simp [heq] at hne

/-- Claim C6 witness: the sentinel theorem applied to the concrete search
output containing one sentinel entry. -/
theorem C6_sentinel_skipped_witness :
    (∀ e ∈ egSearchOut, e.chunk_idx = -1 ∨
        (0 ≤ e.chunk_idx ∧ e.chunk_idx < (egState.chunks.length : Int))) ∧
    ∃ resp consulted,
      retrieve egState ⟨"q", 5, none, none⟩ egSearchOut none = .ok resp ∧
      consulted = (egSearchOut.filter (fun e => ! decide (e.chunk_idx = -1))).map
        (fun e => e.chunk_idx) ∧
      (-1 : Int) ∉ consulted ∧
      buildResults egState.chunks (none : Option ℚ) egSearchOut
        = some (resp.results, consulted) ∧
      resp.results.length ≤ consulted.length :=
  ⟨by decide, C6_sentinel_skipped rfl (by decide)⟩

/-- Claim C7, counterexample: when the primary model is the only attempted
model and it fails with the fallback slot absent, the handler does not
surface a 500 carrying the underlying message; it reaches the trailing
"No STT model available" branch and surfaces 501. -/
theorem C7_counterexample :
    (transcribe_audio ⟨true, [], true, true, true, false⟩ (.ok [0])
        (.raises "boom") (.raises "unused") none).outcome
        = .httpError 501 "No STT model available" ∧
    (transcribe_audio ⟨true, [], true, true, true, false⟩ (.ok [0])
        (.raises "boom") (.raises "unused") none).outcome
        ≠ .httpError 500 "Whisper transcription failed: boom" ∧
    (transcribe_audio ⟨true, [], true, true, true, false⟩ (.ok [0])
        (.raises "boom") (.raises "unused") none).outcome
        ≠ .httpError 500 "Transcription failed: boom" := by
  decide

/-- Claim C7 as amended: the 500 with the underlying message is surfaced
exactly when the fallback (Whisper) model is attempted and fails — in
particular when it is the only attempted model; when instead the primary is
the only attempted model and it fails (fallback slot absent), the handler
surfaces 501 "No STT model available", not a 500. -/
theorem C7_amended :
    (∀ (st : ServerState) (content : List Nat) (msg : String)
        (indic : ModelOutcome String) (detected : Option String),
      st.whisperModelLoaded = true →
      (st.whisperAvailable = true ∨ st.indicModelLoaded = true) →
      ¬ (st.indicModelLoaded = true ∧ st.indicProcessorLoaded = true) →
      transcribe_audio st (.ok content) indic (.raises msg) detected
        = { outcome := .httpError 500 ("Whisper transcription failed: " ++ msg)
            tempCreated := true
            tempDeletions := 1
            primaryInvoked := false
            fallbackInvoked := true }) ∧
    (∀ (st : ServerState) (content : List Nat) (msg : String)
        (whisper : ModelOutcome WhisperResult) (detected : Option String),
      st.indicModelLoaded = true → st.indicProcessorLoaded = true →
      st.whisperModelLoaded = false →
      transcribe_audio st (.ok content) (.raises msg) whisper detected
        = { outcome := .httpError 501 "No STT model available"
            tempCreated := true
            tempDeletions := 1
            primaryInvoked := true
            fallbackInvoked := false }) := by
  constructor
  · intro st content msg indic detected hw hgate hnp
    obtain ⟨rdy, chs, wa, iml, ipl, wml⟩ := st
    simp only at hw hgate hnp
    subst hw
    cases wa <;> cases iml <;> cases ipl <;>
      simp_all [transcribe_audio, whisperStage]
  · intro st content msg whisper detected h1 h2 h3
    obtain ⟨rdy, chs, wa, iml, ipl, wml⟩ := st
    simp only at h1 h2 h3
    subst h1
    subst h2
    subst h3
    simp [transcribe_audio, whisperStage]

/-- Claim C7 witness: the amended theorem applied at a Whisper-only state
whose only attempted model fails (500 with message), and at a primary-only
state whose only attempted model fails (501). -/
theorem C7_amended_witness :
    (transcribe_audio ⟨true, [], true, false, false, true⟩ (.ok [1])
        (.raises "unused") (.raises "boom") none
        = { outcome := .httpError 500 ("Whisper transcription failed: " ++ "boom")
            tempCreated := true
            tempDeletions := 1
            primaryInvoked := false
            fallbackInvoked := true }) ∧
    (transcribe_audio ⟨true, [], true, true, true, false⟩ (.ok [1])
        (.raises "boom") (.raises "unused") none
        = { outcome := .httpError 501 "No STT model available"
            tempCreated := true
            tempDeletions := 1
            primaryInvoked := true
            fallbackInvoked := false }) :=
  ⟨C7_amended.1 _ _ _ _ _ rfl (Or.inl rfl) (by simp),
   C7_amended.2 _ _ _ _ _ rfl rfl rfl⟩

/-- Claim C8, counterexample: with neither speech model slot loaded but the
Whisper library importable, the handler passes the early gate (which tests
the library flag, not the loaded slot), persists the audio to the temporary
resource, and only then raises the trailing 501 — contradicting the claim
that the Unavailable exit happens directly from Start without persisting
the audio. -/
theorem C8_counterexample :
    (transcribe_audio ⟨true, [], true, false, false, false⟩ (.ok [0])
        (.raises "unused") (.raises "unused") none).tempCreated = true ∧
    (transcribe_audio ⟨true, [], true, false, false, false⟩ (.ok [0])
        (.raises "unused") (.raises "unused") none).outcome
        = .httpError 501 "No STT model available" ∧
    (transcribe_audio ⟨true, [], true, false, false, false⟩ (.ok [0])
        (.raises "unused") (.raises "unused") none).primaryInvoked = false ∧
    (transcribe_audio ⟨true, [], true, false, false, false⟩ (.ok [0])
        (.raises "unused") (.raises "unused") none).fallbackInvoked = false := by
  decide

/-- Claim C8 as amended: with neither speech model slot loaded and the
upload readable, the call terminates with 501 and invokes no model; but the
audio is persisted to the temporary resource (and deleted again before the
501) exactly when the Whisper library is importable — the early no-capability
exit skips persistence only when the library is also unavailable, because
the gate tests `WHISPER_AVAILABLE`, not the loaded slot. -/
theorem C8_amended (st : ServerState) (content : List Nat)
    (indic : ModelOutcome String) (whisper : ModelOutcome WhisperResult)
    (detected : Option String)
    (h1 : st.indicModelLoaded = false) (h2 : st.whisperModelLoaded = false) :
    transcribe_audio st (.ok content) indic whisper detected
      = { outcome := .httpError 501
            (if st.whisperAvailable then "No STT model available"
             else "No STT model available. Install Whisper or IndicSeamless.")
          tempCreated := st.whisperAvailable
          tempDeletions := if st.whisperAvailable then 1 else 0
          primaryInvoked := false
          fallbackInvoked := false } := by
  obtain ⟨rdy, chs, wa, iml, ipl, wml⟩ := st
  simp only at h1 h2
  subst h1
  subst h2
  cases wa <;> simp [transcribe_audio, whisperStage]

/-- Claim C8 witness: the amended theorem at both no-slot states — Whisper
library importable (temp file created and deleted) and not importable
(early exit, no temp file). -/
theorem C8_amended_witness :
    (transcribe_audio ⟨true, [], true, false, false, false⟩ (.ok [2])
        (.raises "unused") (.raises "unused") none
        = { outcome := .httpError 501 "No STT model available"
            tempCreated := true
            tempDeletions := 1
            primaryInvoked := false
            fallbackInvoked := false }) ∧
    (transcribe_audio ⟨true, [], false, false, false, false⟩ (.ok [2])
        (.raises "unused") (.raises "unused") none
        = { outcome := .httpError 501 "No STT model available. Install Whisper or IndicSeamless."
            tempCreated := false
            tempDeletions := 0
            primaryInvoked := false
            fallbackInvoked := false }) := by
  constructor
  · exact C8_amended _ _ _ _ _ rfl rfl
  · exact C8_amended _ _ _ _ _ rfl rfl

/-- Claim C9: confidence and segments are synthesized per model — a primary
(IndicSeamless) success returns the fixed default confidence `0.85` with
empty segments; a fallback (Whisper) success returns confidence
`1 − mean(no_speech_prob over segments)` when the model reports segments,
the fixed default `0.8` when it reports none, with segments populated from
the model's native list as (start, end, trimmed text). -/
theorem C9_confidence_synthesis :
    (∀ (st : ServerState), st.indicModelLoaded = true → st.indicProcessorLoaded = true →
      ∀ (content : List Nat) (transcription : String) (whisper : ModelOutcome WhisperResult)
        (detected : Option String),
      (transcribe_audio st (.ok content) (.ok transcription) whisper detected).outcome
        = .ok { text := transcription.trim
                language := detected.getD "hi"
                confidence := some 0.85
                segments := [] }) ∧
    (∀ (st : ServerState), st.whisperModelLoaded = true →
      ∀ (result : WhisperResult) (primaryInvoked : Bool),
      result.segments.getD [] = [] →
      (whisperStage st (.ok result) primaryInvoked).outcome
        = .ok { text := result.text.trim
                language := result.language.getD "unknown"
                confidence := some 0.8
                segments := [] }) ∧
    (∀ (st : ServerState), st.whisperModelLoaded = true →
      ∀ (result : WhisperResult) (primaryInvoked : Bool),
      result.segments.getD [] ≠ [] →
      (whisperStage st (.ok result) primaryInvoked).outcome
        = .ok { text := result.text.trim
                language := result.language.getD "unknown"
                confidence := some (1 -
                  ((result.segments.getD []).map
                    (fun seg => seg.no_speech_prob.getD 0)).sum /
                  ((result.segments.getD []).length : ℚ))
                segments := (result.segments.getD []).map (fun seg =>
                  { start := seg.start, stop := seg.stop, text := seg.text.trim }) }) := by
  refine ⟨?_, ?_, ?_⟩
  · intro st h1 h2 content transcription whisper detected
    simp [transcribe_audio, h1, h2]
  · intro st hw result primaryInvoked hseg
    simp [whisperStage, hw, hseg]
  · intro st hw result primaryInvoked hseg
    simp [whisperStage, hw, List.isEmpty_iff, hseg]

/-- Claim C9 witness: the synthesis theorem applied to a primary success, a
Whisper success with no segment list, and a Whisper success with two
segments (no-speech probabilities 0 and the absent-key default 0). -/
theorem C9_confidence_synthesis_witness :
    ((transcribe_audio ⟨true, [], true, true, true, true⟩ (.ok [3]) (.ok " bonjour ")
        (.raises "unused") none).outcome
      = .ok { text := " bonjour ".trim
              language := (none : Option String).getD "hi"
              confidence := some 0.85
              segments := [] }) ∧
    ((whisperStage ⟨true, [], true, false, false, true⟩
        (.ok ⟨"dry", some "en", none⟩) false).outcome
      = .ok { text := "dry".trim
              language := (some "en").getD "unknown"
              confidence := some 0.8
              segments := [] }) ∧
    ((whisperStage ⟨true, [], true, false, false, true⟩
        (.ok ⟨" mixed ", none, some [⟨0, 2, " first ", some 0⟩, ⟨2, 4, "second", none⟩]⟩)
        true).outcome
      = .ok { text := " mixed ".trim
              language := (none : Option String).getD "unknown"
              confidence := some (1 -
                (([⟨0, 2, " first ", some 0⟩,
                   ⟨2, 4, "second", none⟩] : List WhisperSegment).map
                  (fun seg => seg.no_speech_prob.getD 0)).sum /
                (([⟨0, 2, " first ", some 0⟩,
                   ⟨2, 4, "second", none⟩] : List WhisperSegment).length : ℚ))
              segments := [⟨0, 2, " first ".trim⟩, ⟨2, 4, "second".trim⟩] }) := by
  refine ⟨C9_confidence_synthesis.1 _ rfl rfl _ _ _ _, ?_, ?_⟩
  · exact C9_confidence_synthesis.2.1 _ rfl _ _ rfl
  · exact C9_confidence_synthesis.2.2 _ rfl
      ⟨" mixed ", none, some [⟨0, 2, " first ", some 0⟩, ⟨2, 4, "second", none⟩]⟩ true
      (by decide)

/-- Claim C10: round-trip — a retrieval with no threshold, re-issued with
the threshold set to the lowest score among the first call's results and
the same (deterministic) search output, returns exactly the same response. -/
theorem C10_round_trip {st : ServerState} {request : RetrievalRequest}
    {searchOut : List SearchEntry} {detected_lang : Option String}
    {resp : RetrievalResponse}
    (hth : request.threshold = none)
    (h : retrieve st request searchOut detected_lang = .ok resp)
    (hne : resp.results ≠ []) :
    retrieve st { request with threshold := some (lowestScore resp.results) }
      searchOut detected_lang = .ok resp := by
  unfold retrieve at h ⊢
  split at h
  · exact absurd h (by simp)
  · rename_i hready
    rw [hth] at h
    rw [if_neg hready]
    split at h
    · exact absurd h (by simp)
    · rename_i results consulted heq
      simp only [Handled.ok.injEq] at h
      have hres : resp.results = results := by rw [← h]
      have hfil := buildResults_threshold_filter (lowestScore resp.results) heq
      have hkeep : results.filter (fun r => ! decide (r.score < lowestScore resp.results))
          = results := by
        rw [List.filter_eq_self]
        intro r hr
        simp only [Bool.not_eq_true', decide_eq_false_iff_not, not_lt]
        exact lowestScore_le resp.results r (hres ▸ hr)
      have hgoal : buildResults st.chunks (some (lowestScore resp.results)) searchOut
          = some (results, consulted) := by rw [hfil, hkeep]
      simp only [hgoal]
      exact h ▸ rfl

/-- Claim C10 witness: the round-trip theorem at the concrete search output,
whose lowest returned score is 1. -/
theorem C10_round_trip_witness :
    (retrieve egState ⟨"q", 5, none, none⟩ egSearchOut none = .ok egResponse ∧
     egResponse.results ≠ []) ∧
    retrieve egState
      { (⟨"q", 5, none, none⟩ : RetrievalRequest) with
        threshold := some (lowestScore egResponse.results) } egSearchOut none
      = .ok egResponse :=
  ⟨⟨by decide, by decide⟩,
   @C10_round_trip egState ⟨"q", 5, none, none⟩ egSearchOut none egResponse
     rfl (by decide) (by decide)⟩

end RagService
